import Mathlib

/-!
Verification development for the two scripts of this repository:
`Edge_Server_AI_Trained.py` (stage 1, training) and
`Edge_Server_AI_CONVERT_to_TFlite.py` (stage 2, conversion).

Both scripts are straight-line sequences of library calls.  The shallow
embedding below models:

* the network architecture built by the training script (`buildAutoencoder`),
* the sklearn `train_test_split` call with `test_size=0.2, random_state=42`
  (`train_test_split`; the library-internal Mersenne-Twister shuffle is
  modelled abstractly as a deterministic seed-indexed permutation, which is
  all the claims depend on),
* the functional data flow of stage 1 (`trainedPipeline`) and stage 2
  (`conversionScript`), including the representative-data generator
  (`representative_data_gen`),
* the statement/effect structure of both scripts (`trainedStmts`,
  `convertStmts`) with an execution semantics (`runScript`) used for the
  frame, ordering and error-propagation claims.

Numeric array entries are kept abstract (a type parameter) or rational;
floating-point rounding is irrelevant to every claim treated here.
-/

/-- A Keras `Dense` layer as constructed in `Edge_Server_AI_Trained.py`:
its width (`units`) and its activation string. -/
structure DenseSpec where
  units : Nat
  activation : String
deriving DecidableEq, Repr

/-- The network built in `Edge_Server_AI_Trained.py` lines 19-25:
`Dense(64,relu); Dense(32,relu); Dense(16,relu); Dense(32,relu);
Dense(64,relu); Dense(input_dim, linear)`, applied in this order to the
input of width `input_dim`. -/
def buildAutoencoder (input_dim : Nat) : List DenseSpec :=
  [⟨64, "relu"⟩, ⟨32, "relu"⟩, ⟨16, "relu"⟩, ⟨32, "relu"⟩, ⟨64, "relu"⟩,
   ⟨input_dim, "linear"⟩]

/-- The shuffle performed inside sklearn `train_test_split` for a fixed
`random_state`.  The exact permutation is library-internal (NumPy
Mersenne-Twister); it is modelled as a deterministic seed-indexed rotation,
which is a permutation of the rows.  Every claim below depends only on the
shuffle being a deterministic function of the seed and a permutation. -/
def shuffleRows (seed : Nat) (l : List α) : List α :=
  l.rotate seed

/-- Model of `sklearn.model_selection.train_test_split(data, test_size=0.2,
random_state=42)` as called in `Edge_Server_AI_Trained.py` line 16.
Per the library's documented behaviour the test split receives
`ceil(0.2 * n)` rows (for `n` rows of input, `ceil(n/5) = (n+4)/5`), the
train split the remaining rows, both taken from the seeded shuffle
(test rows first, then train rows); the call raises when either side of
the split would be empty.  Returns `(X_train, X_val)` as the script binds
them. -/
def train_test_split (data : List α) : Except String (List α × List α) :=
  let n := data.length
  let nTest := (n + 4) / 5
  let nTrain := n - nTest
  if nTest = 0 ∨ nTrain = 0 then
    Except.error "train_test_split: resulting split would be empty"
  else
    let p := shuffleRows 42 data
    Except.ok (p.drop nTest, p.take nTest)

/-- The `model.compile(optimizer=Adam(1e-3), loss='mse')` call of
`Edge_Server_AI_Trained.py` line 27: optimizer name, learning rate, loss. -/
structure CompileCall where
  optimizer : String
  learning_rate : ℚ
  loss : String
deriving DecidableEq, Repr

/-- The `model.fit(...)` call of `Edge_Server_AI_Trained.py` line 28:
input `x`, target `y`, validation pair, epochs, batch size. -/
structure FitCall (ρ : Type) where
  x : List ρ
  y : List ρ
  validation_data : List ρ × List ρ
  epochs : Nat
  batch_size : Nat
deriving DecidableEq, Repr

/-- Functional model of the whole of `Edge_Server_AI_Trained.py` after the
array is loaded: split the data, read `input_dim = X_train.shape[1]`,
build the network, compile, fit.  Returns the compile call, the fit call
and the constructed layer list; an error of `train_test_split` propagates
(the script has no handler). -/
def trainedPipeline (data : List (List β)) :
    Except String (CompileCall × FitCall (List β) × List DenseSpec) := do
  let (xtr, xval) ← train_test_split data
  let input_dim := (xtr.headD []).length
  let net := buildAutoencoder input_dim
  let comp : CompileCall := ⟨"Adam", 1/1000, "mse"⟩
  let fitc : FitCall (List β) := ⟨xtr, xtr, (xval, xval), 50, 64⟩
  pure (comp, fitc, net)

/-- Rows `i` (inclusive) to `j` (exclusive) of an array, as NumPy row
slicing `data[i:j]` computes it for nonnegative bounds: out-of-range
bounds are clamped, an out-of-range slice is empty, never an error. -/
def npSliceRows (data : List α) (i j : Nat) : List α :=
  (data.drop i).take (j - i)

/-- The generator `representative_data_gen` of
`Edge_Server_AI_CONVERT_to_TFlite.py` lines 11-15: for `i in range(100)`
it yields the singleton list `[data[i:i+1]]`.  The `astype("float32")`
cast is the identity on the abstract entries modelled here. -/
def representative_data_gen (data : List α) : List (List (List α)) :=
  (List.range 100).map (fun i => [npSliceRows data i (i + 1)])

/-- A TFLite optimization flag; the source uses only `Optimize.DEFAULT`. -/
inductive Optimization where
  | DEFAULT
deriving DecidableEq, Repr

/-- The mutable converter object of `tf.lite.TFLiteConverter`, as far as the
conversion script touches it: the wrapped model, the `optimizations` list
and the optional `representative_dataset` generator. -/
structure TFLiteConverter (μ γ : Type) where
  model : μ
  optimizations : List Optimization
  representative_dataset : Option γ
deriving DecidableEq, Repr

/-- `tf.lite.TFLiteConverter.from_keras_model(model)`: a fresh converter
with no optimizations and no representative dataset set. -/
def from_keras_model (m : μ) : TFLiteConverter μ γ :=
  ⟨m, [], none⟩

/-- Functional model of `Edge_Server_AI_CONVERT_to_TFlite.py` after the
model is loaded: build the converter, set `optimizations` to
`[Optimize.DEFAULT]`, set `representative_dataset` to the generator over
the NumPy file contents `npyData`, call the library's `convert` (abstract
here, passed in as `convertImpl`), and return the converter state passed
to `convert` together with the bytes written to
`models/autoencoder.tflite` (the blob `convert` returned). -/
def conversionScript (m : μ) (npyData : List (List β))
    (convertImpl : TFLiteConverter μ (List (List (List (List β)))) → List Nat) :
    TFLiteConverter μ (List (List (List (List β)))) × List Nat :=
  let c0 : TFLiteConverter μ (List (List (List (List β)))) := from_keras_model m
  let c1 := { c0 with optimizations := [Optimization.DEFAULT] }
  let c2 := { c1 with representative_dataset := some (representative_data_gen npyData) }
  let tflite_model := convertImpl c2
  (c2, tflite_model)

/-- An externally visible effect a statement of either script can perform.
The alphabet covers everything the frame claim rules in or out: file
reads/writes by path, network access, environment reads, CLI-argument
reads. -/
inductive Eff where
  | read (path : String)
  | write (path : String)
  | network
  | readEnv (name : String)
  | readArgv
deriving DecidableEq, Repr

/-- One top-level statement of a script: a label, the file-level effects it
performs when it runs to completion, whether it is a call into the ML
framework or NumPy/sklearn, whether it is a validation check written in
the script itself, whether it can raise, and whether an enclosing
`try/except` exists for it. -/
structure Stmt where
  label : String
  effs : List Eff
  isFrameworkCall : Bool
  isScriptCheck : Bool
  validatesShape : Bool
  canRaise : Bool
  inTry : Bool
deriving DecidableEq, Repr

/-- The statement sequence of `Edge_Server_AI_Trained.py` (lines 15-30):
load the array, split it, build the model (lines 18-26), compile, fit,
save, print.  No statement is a script-written check and none sits inside
a `try/except` (the script has no conditionals and no handlers). -/
def trainedStmts : List Stmt :=
  [⟨"load_array", [Eff.read "data/windows_features.npy"], true, false, false, true, false⟩,
   ⟨"split", [], true, false, true, true, false⟩,
   ⟨"build_model", [], true, false, false, true, false⟩,
   ⟨"compile", [], true, false, false, true, false⟩,
   ⟨"fit", [], true, false, true, true, false⟩,
   ⟨"save_model", [Eff.write "models/autoencoder.h5"], true, false, false, true, false⟩,
   ⟨"print_saved", [], false, false, false, false, false⟩]

/-- The statement sequence of `Edge_Server_AI_CONVERT_to_TFlite.py`
(lines 6-19): load the saved model, wrap it in a converter, set the
optimizations attribute, define the generator, set the
representative-dataset attribute, convert (during which the library runs
the generator, which re-reads `data/windows_features.npy`), write the
blob, print.  No statement is a script-written check and none sits
inside a `try/except`. -/
def convertStmts : List Stmt :=
  [⟨"load_model", [Eff.read "models/autoencoder.h5"], true, false, false, true, false⟩,
   ⟨"from_keras_model", [], true, false, false, true, false⟩,
   ⟨"set_optimizations", [], false, false, false, false, false⟩,
   ⟨"def_representative_data_gen", [], false, false, false, false, false⟩,
   ⟨"set_representative_dataset", [], false, false, false, false, false⟩,
   ⟨"convert", [Eff.read "data/windows_features.npy"], true, false, true, true, false⟩,
   ⟨"write_tflite", [Eff.write "models/autoencoder.tflite"], true, false, false, true, false⟩,
   ⟨"print_wrote", [], false, false, false, false, false⟩]

/-- Execution semantics of a script.  `failAt = some k` means the
statement at index `k` raises an exception while running (contributing no
effects).  A raised exception is caught only when the raising statement
sits inside a `try/except` (`inTry`), in which case execution continues
with the next statement; otherwise the script aborts.  Returns the effect
trace and whether the script ran to completion. -/
def runScript : List Stmt → Option Nat → List Eff × Bool
  | [], _ => ([], true)
  | s :: rest, some 0 =>
      if s.inTry then runScript rest none else ([], false)
  | s :: rest, some (k + 1) =>
      let r := runScript rest (some k)
      (s.effs ++ r.1, r.2)
  | s :: rest, none =>
      let r := runScript rest none
      (s.effs ++ r.1, r.2)

/-- The effect trace of a script that runs to completion. -/
def traceOf (stmts : List Stmt) : List Eff :=
  (stmts.map (fun s => s.effs)).flatten

/-- The combined effect trace of a full successful run of stage 1 followed
by stage 2. -/
def fullTrace : List Eff :=
  traceOf trainedStmts ++ traceOf convertStmts

/-- Modelled from the claim's words only (not from the source): the number
of rows that is "20% of the rows (rounded)", reading "rounded" as
round-to-nearest (half up): `round(n/5) = (2n + 5) / 10`. -/
def specRoundedTestCount (n : Nat) : Nat :=
  (2 * n + 5) / 10

/-- Unfolding lemma for `train_test_split`. -/
theorem train_test_split_eq (data : List α) :
    train_test_split data =
      if (data.length + 4) / 5 = 0 ∨ data.length - (data.length + 4) / 5 = 0 then
        Except.error "train_test_split: resulting split would be empty"
      else
        Except.ok ((shuffleRows 42 data).drop ((data.length + 4) / 5),
                   (shuffleRows 42 data).take ((data.length + 4) / 5)) :=
  rfl

/-- On at least two rows the split succeeds, test rows first from the
shuffle. -/
theorem train_test_split_ok (data : List α) (h : 2 ≤ data.length) :
    train_test_split data =
      Except.ok ((shuffleRows 42 data).drop ((data.length + 4) / 5),
                 (shuffleRows 42 data).take ((data.length + 4) / 5)) := by
  rw [train_test_split_eq, if_neg]
  omega

/-- C10 (amended: the validation share is 20% rounded UP, i.e.
`ceil(n/5)`, not round-to-nearest): the train/validation split of
`Edge_Server_AI_Trained.py` line 16 is deterministic (it is a pure
function of the data, the seed 42 being fixed) and a partition: whenever
the input has at least two rows the call succeeds, the validation split
holds `ceil(n/5)` rows, the training split holds the remaining rows, and
together they contain exactly the rows of the input array. -/
theorem train_test_split_partition (data : List α) (h : 2 ≤ data.length) :
    ∃ xtr xval, train_test_split data = Except.ok (xtr, xval) ∧
      xval.length = (data.length + 4) / 5 ∧
      xtr.length = data.length - (data.length + 4) / 5 ∧
      (xtr ++ xval).Perm data := by
  refine ⟨_, _, train_test_split_ok data h, ?_, ?_, ?_⟩
  · rw [List.length_take, shuffleRows, List.length_rotate]
    omega
  · rw [List.length_drop, shuffleRows, List.length_rotate]
  · refine List.Perm.trans (List.perm_append_comm) ?_
    rw [List.take_append_drop]
    exact List.rotate_perm data 42

/-- Witness for `train_test_split_partition` at a concrete two-row
array. -/
theorem train_test_split_partition_witness :
    ∃ xtr xval, train_test_split ([[1], [2]] : List (List Int)) = Except.ok (xtr, xval) ∧
      xval.length = (([[1], [2]] : List (List Int)).length + 4) / 5 ∧
      xtr.length = ([[1], [2]] : List (List Int)).length - (([[1], [2]] : List (List Int)).length + 4) / 5 ∧
      (xtr ++ xval).Perm ([[1], [2]] : List (List Int)) :=
  train_test_split_partition [[1], [2]] (by decide)

/-- C10 counterexample: on an 11-row input the validation split holds
3 = ceil(11/5) rows, while "20% of the rows (rounded)" is
round(2.2) = 2; the claim's size statement fails at n = 11. -/
theorem train_test_split_not_round_nearest :
    train_test_split (List.range 11) =
      Except.ok ([1, 2, 3, 4, 5, 6, 7, 8], [9, 10, 0]) ∧
    ([9, 10, 0] : List Nat).length ≠ specRoundedTestCount 11 :=
  ⟨rfl, by decide⟩

/-- C1 counterexample: at input dimension 40 (any value would do) the
constructed model does not have exactly five dense layers of widths
64/32/16/32/64: it has a sixth dense layer. -/
theorem buildAutoencoder_not_five_layers :
    ¬ ((buildAutoencoder 40).length = 5 ∧
       (buildAutoencoder 40).map (fun l => l.units) = [64, 32, 16, 32, 64]) := by
  decide

/-- C1 (amended: the network has SIX dense layers, not five): for every
input dimension the constructed model is the five hidden dense layers of
widths 64, 32, 16, 32, 64 in that order, each with relu activation,
followed by one more dense output layer of width `input_dim` with linear
activation; six dense layers in all. -/
theorem buildAutoencoder_structure (input_dim : Nat) :
    buildAutoencoder input_dim =
      [⟨64, "relu"⟩, ⟨32, "relu"⟩, ⟨16, "relu"⟩, ⟨32, "relu"⟩, ⟨64, "relu"⟩] ++
        [⟨input_dim, "linear"⟩] ∧
    (buildAutoencoder input_dim).length = 6 ∧
    ((buildAutoencoder input_dim).take 5).all (fun l => l.activation == "relu") = true :=
  ⟨rfl, rfl, rfl⟩

/-- C2: for every run that reaches `model.compile`/`model.fit`, the
hyperparameters are exactly the fixed ones: Adam optimizer at learning
rate 1e-3, mean-squared-error loss, 50 epochs, batch size 64; the values
are literals of the script, so no run can use any other values and none
is configurable. -/
theorem trained_hyperparameters (data : List (List β)) (c : CompileCall)
    (f : FitCall (List β)) (net : List DenseSpec)
    (h : trainedPipeline data = Except.ok (c, f, net)) :
    c = ⟨"Adam", 1/1000, "mse"⟩ ∧ f.epochs = 50 ∧ f.batch_size = 64 := by
  cases hs : train_test_split data with
  | error e =>
      have hp : trainedPipeline data = Except.error e := by
        unfold trainedPipeline; rw [hs]; rfl
      rw [hp] at h
      exact Except.noConfusion h
  | ok p =>
      obtain ⟨xtr, xval⟩ := p
      have hp : trainedPipeline data =
          Except.ok (⟨"Adam", 1/1000, "mse"⟩,
                     ⟨xtr, xtr, (xval, xval), 50, 64⟩,
                     buildAutoencoder ((xtr.headD []).length)) := by
        unfold trainedPipeline; rw [hs]; rfl
      rw [hp] at h
      simp only [Except.ok.injEq, Prod.mk.injEq] at h
      obtain ⟨hc, hf, hn⟩ := h
      refine ⟨hc.symm, ?_, ?_⟩ <;> rw [← hf]

/-- Witness for `trained_hyperparameters` at a concrete two-row array. -/
theorem trained_hyperparameters_witness :
    (⟨"Adam", 1/1000, "mse"⟩ : CompileCall) = ⟨"Adam", 1/1000, "mse"⟩ ∧
    (⟨[[2]], [[2]], ([[1]], [[1]]), 50, 64⟩ : FitCall (List Int)).epochs = 50 ∧
    (⟨[[2]], [[2]], ([[1]], [[1]]), 50, 64⟩ : FitCall (List Int)).batch_size = 64 :=
  trained_hyperparameters [[1], [2]] ⟨"Adam", 1/1000, "mse"⟩
    ⟨[[2]], [[2]], ([[1]], [[1]]), 50, 64⟩ (buildAutoencoder 1) (by rfl)

/-- C3: the model is trained as an autoencoder.  For every rectangular
input array (all rows of width `w`, at least two rows) whose run reaches
`model.fit`, the fit call uses the training split as both input and
target and the validation split as both validation input and target, and
the network is `buildAutoencoder w`, whose last (output) dense layer has
width `w`, the data's column count: the trained model maps feature
vectors of width `w` to vectors of width `w`. -/
theorem trained_autoencoder_shape (data : List (List β)) (w : Nat)
    (hw : ∀ r ∈ data, r.length = w) (h2 : 2 ≤ data.length)
    (c : CompileCall) (f : FitCall (List β)) (net : List DenseSpec)
    (h : trainedPipeline data = Except.ok (c, f, net)) :
    f.y = f.x ∧ f.validation_data.2 = f.validation_data.1 ∧
    net = buildAutoencoder w ∧ net.getLast? = some ⟨w, "linear"⟩ := by
  have hsplit := train_test_split_ok data h2
  have hp : trainedPipeline data =
      Except.ok (⟨"Adam", 1/1000, "mse"⟩,
                 ⟨(shuffleRows 42 data).drop ((data.length + 4) / 5),
                  (shuffleRows 42 data).drop ((data.length + 4) / 5),
                  ((shuffleRows 42 data).take ((data.length + 4) / 5),
                   (shuffleRows 42 data).take ((data.length + 4) / 5)), 50, 64⟩,
                 buildAutoencoder
                   (((shuffleRows 42 data).drop ((data.length + 4) / 5)).headD []).length) := by
    unfold trainedPipeline; rw [hsplit]; rfl
  rw [hp] at h
  simp only [Except.ok.injEq, Prod.mk.injEq] at h
  obtain ⟨hc, hf, hn⟩ := h
  have hlen : (((shuffleRows 42 data).drop ((data.length + 4) / 5)).headD []).length = w := by
    have hd : ((shuffleRows 42 data).drop ((data.length + 4) / 5)).length =
        data.length - (data.length + 4) / 5 := by
      rw [List.length_drop, shuffleRows, List.length_rotate]
    have hne : (shuffleRows 42 data).drop ((data.length + 4) / 5) ≠ [] := by
      intro hnil
      rw [hnil] at hd
      simp only [List.length_nil] at hd
      omega
    obtain ⟨a, t, hat⟩ := List.exists_cons_of_ne_nil hne
    rw [hat]
    simp only [List.headD_cons]
    apply hw
    have ha : a ∈ (shuffleRows 42 data).drop ((data.length + 4) / 5) := by
      rw [hat]; exact List.mem_cons_self a t
    have ha2 : a ∈ shuffleRows 42 data := List.drop_subset _ _ ha
    rw [shuffleRows] at ha2
    exact List.mem_rotate.mp ha2
  refine ⟨by rw [← hf], by rw [← hf], by rw [← hn, hlen], ?_⟩
  rw [← hn, hlen]
  rfl

/-- Witness for `trained_autoencoder_shape` at a concrete 2-by-2 array. -/
theorem trained_autoencoder_shape_witness :
    (⟨[[3, 4]], [[3, 4]], ([[1, 2]], [[1, 2]]), 50, 64⟩ : FitCall (List Int)).y =
      (⟨[[3, 4]], [[3, 4]], ([[1, 2]], [[1, 2]]), 50, 64⟩ : FitCall (List Int)).x ∧
    (⟨[[3, 4]], [[3, 4]], ([[1, 2]], [[1, 2]]), 50, 64⟩ : FitCall (List Int)).validation_data.2 =
      (⟨[[3, 4]], [[3, 4]], ([[1, 2]], [[1, 2]]), 50, 64⟩ : FitCall (List Int)).validation_data.1 ∧
    buildAutoencoder 2 = buildAutoencoder 2 ∧
    (buildAutoencoder 2).getLast? = some ⟨2, "linear"⟩ :=
  trained_autoencoder_shape [[1, 2], [3, 4]] 2 (by decide) (by decide)
    ⟨"Adam", 1/1000, "mse"⟩ ⟨[[3, 4]], [[3, 4]], ([[1, 2]], [[1, 2]]), 50, 64⟩
    (buildAutoencoder 2) (by rfl)

/-- C4: for every loaded model, input array and library `convert`
implementation, the converter state passed to `convert` wraps the loaded
model, has `optimizations = [Optimize.DEFAULT]` and
`representative_dataset` set to the generator (both set before `convert`
is called, since they are fields of the very state `convert` receives),
and the bytes written to the output file are exactly the blob `convert`
returned, unchanged. -/
theorem conversionScript_config (m : μ) (npyData : List (List β))
    (convertImpl : TFLiteConverter μ (List (List (List (List β)))) → List Nat) :
    (conversionScript m npyData convertImpl).1.optimizations = [Optimization.DEFAULT] ∧
    (conversionScript m npyData convertImpl).1.representative_dataset =
      some (representative_data_gen npyData) ∧
    (conversionScript m npyData convertImpl).1.model = m ∧
    (conversionScript m npyData convertImpl).2 =
      convertImpl (conversionScript m npyData convertImpl).1 :=
  ⟨rfl, rfl, rfl, rfl⟩

/-- C9: for every input array the generator yields exactly 100 items, the
i-th item being the singleton list `[data[i:i+1]]`; the slice is total
(modelled by `npSliceRows`, which clamps), and every out-of-range slice
(row index at or past the number of rows) is the empty array, so arrays
with fewer than 100 rows raise no index error. -/
theorem representative_data_gen_spec (data : List α) :
    (representative_data_gen data).length = 100 ∧
    (∀ i, i < 100 → (representative_data_gen data).getD i [] = [npSliceRows data i (i + 1)]) ∧
    (∀ i, data.length ≤ i → npSliceRows data i (i + 1) = []) := by
  refine ⟨by simp [representative_data_gen], ?_, ?_⟩
  · intro i hi
    simp [representative_data_gen, List.getD, List.getElem?_map, List.getElem?_range, hi]
  · intro i hle
    simp [npSliceRows, List.drop_eq_nil_of_le hle]

/-- Witness for `representative_data_gen_spec` on a concrete two-row
array, exercising the out-of-range index 7. -/
theorem representative_data_gen_spec_witness :
    (representative_data_gen ([[1], [2]] : List (List Int))).length = 100 ∧
    (representative_data_gen ([[1], [2]] : List (List Int))).getD 7 [] =
      [npSliceRows ([[1], [2]] : List (List Int)) 7 8] ∧
    npSliceRows ([[1], [2]] : List (List Int)) 7 8 = [] :=
  ⟨(representative_data_gen_spec [[1], [2]]).1,
   (representative_data_gen_spec [[1], [2]]).2.1 7 (by decide),
   (representative_data_gen_spec [[1], [2]]).2.2 7 (by decide)⟩

/-- C5: the combined effect trace of a successful run of both scripts
consists only of the four listed file accesses (reading
`data/windows_features.npy`, writing `models/autoencoder.h5`, reading
that HDF5 file, writing `models/autoencoder.tflite`), each of which does
occur; in particular no network access, environment read or CLI-argument
read (all expressible in the `Eff` alphabet) ever occurs, and no other
file is read or written.  (The npy file is read a second time during
conversion, by the representative-data generator; that is one of the
listed accesses.) -/
theorem fullTrace_frame :
    (∀ e ∈ fullTrace,
        e = Eff.read "data/windows_features.npy" ∨
        e = Eff.write "models/autoencoder.h5" ∨
        e = Eff.read "models/autoencoder.h5" ∨
        e = Eff.write "models/autoencoder.tflite") ∧
    Eff.read "data/windows_features.npy" ∈ fullTrace ∧
    Eff.write "models/autoencoder.h5" ∈ fullTrace ∧
    Eff.read "models/autoencoder.h5" ∈ fullTrace ∧
    Eff.write "models/autoencoder.tflite" ∈ fullTrace := by
  decide

/-- Witness for `fullTrace_frame` at a concrete trace element. -/
theorem fullTrace_frame_witness :
    Eff.read "data/windows_features.npy" = Eff.read "data/windows_features.npy" ∨
    Eff.read "data/windows_features.npy" = Eff.write "models/autoencoder.h5" ∨
    Eff.read "data/windows_features.npy" = Eff.read "models/autoencoder.h5" ∨
    Eff.read "data/windows_features.npy" = Eff.write "models/autoencoder.tflite" :=
  fullTrace_frame.1 (Eff.read "data/windows_features.npy") (by decide)

/-- C6: neither script contains a validation check of its own (no
statement of either script is a script-written check; the sources have no
conditionals or assertions at all), and every statement that validates
array shapes is a call into the framework, so the rejection of any
ill-shaped input comes from the framework's own validation, not from the
scripts' code. -/
theorem scripts_no_script_checks :
    (∀ s ∈ trainedStmts ++ convertStmts, s.isScriptCheck = false) ∧
    (∀ s ∈ trainedStmts ++ convertStmts, s.validatesShape = true → s.isFrameworkCall = true) := by
  decide

/-- Witness for `scripts_no_script_checks` at the `train_test_split`
statement. -/
theorem scripts_no_script_checks_witness :
    (Stmt.mk "split" [] true false true true false).isScriptCheck = false ∧
    (Stmt.mk "split" [] true false true true false).isFrameworkCall = true :=
  ⟨scripts_no_script_checks.1 (Stmt.mk "split" [] true false true true false) (by decide),
   scripts_no_script_checks.2 (Stmt.mk "split" [] true false true true false) (by decide) rfl⟩

/-- C7: no statement of either script sits inside a `try/except`, and
under the execution semantics an exception raised at any statement up to
and including the final write terminates the script (the run does not
complete) and produces a trace without the output-file write: a training
run failing at any of its statements up to `model.save` writes no
`models/autoencoder.h5`, and a conversion run failing at any statement up
to the blob write writes no `models/autoencoder.tflite`. -/
theorem scripts_no_error_handling :
    (∀ s ∈ trainedStmts ++ convertStmts, s.inTry = false) ∧
    (∀ k, k ≤ 5 →
      Eff.write "models/autoencoder.h5" ∉ (runScript trainedStmts (some k)).1 ∧
      (runScript trainedStmts (some k)).2 = false) ∧
    (∀ k, k ≤ 6 →
      Eff.write "models/autoencoder.tflite" ∉ (runScript convertStmts (some k)).1 ∧
      (runScript convertStmts (some k)).2 = false) := by
  refine ⟨by decide, ?_, ?_⟩
  · intro k hk
    interval_cases k <;> exact (by decide)
  · intro k hk
    interval_cases k <;> exact (by decide)

/-- Witness for `scripts_no_error_handling`: failure at the very first
statement of each script. -/
theorem scripts_no_error_handling_witness :
    (Stmt.mk "load_array" [Eff.read "data/windows_features.npy"] true false false true
      false).inTry = false ∧
    (Eff.write "models/autoencoder.h5" ∉ (runScript trainedStmts (some 0)).1 ∧
      (runScript trainedStmts (some 0)).2 = false) ∧
    (Eff.write "models/autoencoder.tflite" ∉ (runScript convertStmts (some 0)).1 ∧
      (runScript convertStmts (some 0)).2 = false) :=
  ⟨scripts_no_error_handling.1
      (Stmt.mk "load_array" [Eff.read "data/windows_features.npy"] true false false true false)
      (by decide),
   scripts_no_error_handling.2.1 0 (by decide),
   scripts_no_error_handling.2.2 0 (by decide)⟩

/-- C8: the spec's step sequence is realized in the scripts' fixed linear
statement order: load array, then split, then build the network, then
fit, then save occur in this order in stage 1 (with the compile call in
between build and fit and a final print, neither of which is a spec
step), and reload, then convert, then write bytes occur in this order in
stage 2; each spec step occurs exactly once, so none is skipped,
repeated or reordered. -/
theorem scripts_step_order :
    List.Sublist ["load_array", "split", "build_model", "fit", "save_model"]
      (trainedStmts.map (fun s => s.label)) ∧
    (∀ l ∈ ["load_array", "split", "build_model", "fit", "save_model"],
      (trainedStmts.map (fun s => s.label)).count l = 1) ∧
    List.Sublist ["load_model", "convert", "write_tflite"]
      (convertStmts.map (fun s => s.label)) ∧
    (∀ l ∈ ["load_model", "convert", "write_tflite"],
      (convertStmts.map (fun s => s.label)).count l = 1) := by
  decide

/-- Witness for `scripts_step_order` at the `split` step. -/
theorem scripts_step_order_witness :
    (trainedStmts.map (fun s => s.label)).count "split" = 1 :=
  scripts_step_order.2.1 "split" (by decide)
